import Mathlib

/-!
Verification of the door-configurator hardware placement algorithms: hinge
placement (vertical distribution, side/type offsets), lock placement
validation, handle-lock coordination, inactive-leaf bolt placement, and
pairwise hardware conflict detection.

Numbers are modelled as real numbers.  JavaScript `||` defaulting and
truthiness on optional numeric fields are modelled explicitly (`jsOr`,
`jsTruthy`): `undefined` and `0` are falsy.  Error messages that interpolate
numeric values keep their static text only.
-/

/-- 3D vector in door-local space (millimetres), mirroring `Vec3`. -/
structure Vec3 where
  x : ℝ
  y : ℝ
  z : ℝ

/-- Euler rotation, mirroring `THREE.Euler(x, y, z, order)`. -/
structure Euler where
  x : ℝ
  y : ℝ
  z : ℝ
  order : String

/-- Which door edge something mounts to ('left' | 'right'). -/
inductive Side where
  | left
  | right
deriving DecidableEq

/-- Hinge vertical distribution mode ('even' | 'weighted'). -/
inductive DistributionMode where
  | even
  | weighted
deriving DecidableEq

/-- Hinge type ('butt' | 'concealed' | 'piano'). -/
inductive HingeType where
  | butt
  | concealed
  | piano
deriving DecidableEq

/-- Result record `{ valid: boolean; error?: string }`. -/
structure ValidationResult where
  valid : Bool
  error : Option String

/-- JavaScript `v || d` on an optional numeric field: `undefined` and `0` fall
back to the default `d`. -/
noncomputable def jsOr (v : Option ℝ) (d : ℝ) : ℝ :=
  match v with
  | none => d
  | some x => if x = 0 then d else x

/-- JavaScript truthiness of an optional numeric field: `undefined` and `0`
are falsy. -/
noncomputable def jsTruthy (v : Option ℝ) : Bool :=
  match v with
  | none => false
  | some x => if x = 0 then false else true

/-- Source `getHingeXPosition`: left edge is 0, right edge is `doorWidth`. -/
def getHingeXPosition (hingeSide : Side) (doorWidth : ℝ) : ℝ :=
  match hingeSide with
  | .left => 0
  | .right => doorWidth

/-- Body of the middle-hinge loop in `calculateHingeYPositions`: in 'even'
mode the i-th middle hinge sits at `bottomOffset + spacing * i` with
`spacing = availableHeight / (hingeCount - 1)`; in 'weighted' mode at
`bottomOffset + availableHeight * (i / (hingeCount - 1)) ^ 0.8`. -/
noncomputable def hingeMiddleY (distributionMode : DistributionMode) (hingeCount : ℕ)
    (doorHeight topOffset bottomOffset : ℝ) (i : ℕ) : ℝ :=
  let availableHeight := (doorHeight - topOffset) - bottomOffset
  match distributionMode with
  | .even => bottomOffset + (availableHeight / ((hingeCount : ℝ) - 1)) * (i : ℝ)
  | .weighted => bottomOffset + availableHeight * (((i : ℝ) / ((hingeCount : ℝ) - 1)) ^ (0.8 : ℝ))

/-- Source `calculateHingeYPositions`: throws below 2 hinges, returns
`[bottomOffset, doorHeight - topOffset]` unsorted for exactly 2, otherwise
splices the middle positions between them (giving
`bottomOffset :: middles ++ [doorHeight - topOffset]`) and sorts ascending. -/
noncomputable def calculateHingeYPositions (hingeCount : ℕ)
    (doorHeight topOffset bottomOffset : ℝ) (distributionMode : DistributionMode) :
    Except String (List ℝ) :=
  if hingeCount < 2 then
    .error "Minimum 2 hinges required"
  else if hingeCount = 2 then
    .ok [bottomOffset, doorHeight - topOffset]
  else
    let middleCount := hingeCount - 2
    let middles := (List.range middleCount).map fun j =>
      hingeMiddleY distributionMode hingeCount doorHeight topOffset bottomOffset (j + 1)
    .ok (List.insertionSort (· ≤ ·) (bottomOffset :: middles ++ [doorHeight - topOffset]))

/-- Source `getHingeZPosition`: butt and piano sit on the surface (0),
concealed embeds at `-(leafThickness - 10)`. -/
noncomputable def getHingeZPosition (hingeType : HingeType) (leafThickness : ℝ) : ℝ :=
  match hingeType with
  | .butt => 0
  | .concealed => -(leafThickness - 10)
  | .piano => 0

/-- Source `getHingeRotation`: barrel axis vertical, +90 degrees about Y for a
left-mounted hinge, -90 degrees for a right-mounted one.  The hinge type
string is accepted but unused (the piano branch in the source is empty). -/
noncomputable def getHingeRotation (hingeSide : Side) (_hingeType : String) : Euler :=
  let rotationY : ℝ :=
    match hingeSide with
    | .left => Real.pi / 2
    | .right => -(Real.pi / 2)
  ⟨0, rotationY, 0, "XYZ"⟩

/-- Butt hinge parameters (plateWidth, plateHeight, barrelDiameter). -/
structure ButtHingeParams where
  plateWidth : ℝ
  plateHeight : ℝ
  barrelDiameter : ℝ

/-- Source `adjustButtHingePlacement`: shift X by half the barrel diameter,
negatively for a left-mounted hinge, positively for a right-mounted one. -/
noncomputable def adjustButtHingePlacement (basePosition : Vec3) (hingeSide : Side)
    (params : ButtHingeParams) : Vec3 :=
  let offset := params.barrelDiameter / 2
  match hingeSide with
  | .left => ⟨basePosition.x - offset, basePosition.y, basePosition.z⟩
  | .right => ⟨basePosition.x + offset, basePosition.y, basePosition.z⟩

/-- Concealed hinge parameters (cupDiameter, cupDepth, armLength). -/
structure ConcealedHingeParams where
  cupDiameter : ℝ
  cupDepth : ℝ
  armLength : ℝ

/-- Source `adjustConcealedHingePlacement`: X gains a 5mm inset toward the
leaf (sign chosen by whether the base X is 0), and Z is replaced by the cup
centre `-(cupDepth / 2)`. -/
noncomputable def adjustConcealedHingePlacement (basePosition : Vec3) (_leafThickness : ℝ)
    (params : ConcealedHingeParams) : Vec3 :=
  let cupCenterZ := -(params.cupDepth / 2)
  let edgeInset : ℝ := 5
  ⟨basePosition.x + (if basePosition.x = 0 then edgeInset else -edgeInset),
    basePosition.y, cupCenterZ⟩

/-- Hinge placement metadata.  The declared interface requires index, type,
side and yPosition; the piano path only fills isPiano and length, so every
field is optional here to represent what the code actually constructs. -/
structure HingeMetadata where
  index : Option ℕ
  type : Option String
  side : Option Side
  yPosition : Option ℝ
  isPiano : Option Bool
  length : Option ℝ

/-- A hinge placement record.  `id` is optional because the piano path
constructs an object without one. -/
structure HingePlacement where
  id : Option String
  position : Vec3
  rotation : Euler
  metadata : HingeMetadata

/-- Piano hinge parameters (width, fullHeight). -/
structure PianoHingeParams where
  width : ℝ
  fullHeight : Bool

/-- Source `calculatePianoHingePlacement`: one continuous placement at the
hinge-side edge, centred vertically, with only `length` and `isPiano`
metadata (no id, index, type, side or yPosition). -/
noncomputable def calculatePianoHingePlacement (doorHeight doorWidth : ℝ) (hingeSide : Side)
    (_params : PianoHingeParams) : HingePlacement :=
  let xPos : ℝ := match hingeSide with | .left => 0 | .right => doorWidth
  let yPos := doorHeight / 2
  { id := none
    position := ⟨xPos, yPos, 0⟩
    rotation := getHingeRotation hingeSide "piano"
    metadata := { index := none, type := none, side := none, yPosition := none,
                  isPiano := some true, length := some doorHeight } }

/-- Source `validateHingeCount`: minimum 2 hinges, 3 above 2100mm height or
50kg, 4 above 80kg (interpolated message text elided). -/
noncomputable def validateHingeCount (doorHeight doorWeight : ℝ) (hingeCount : ℕ) :
    ValidationResult :=
  let minRequired1 : ℕ := if doorHeight > 2100 then 3 else 2
  let minRequired2 : ℕ := if doorWeight > 50 then max minRequired1 3 else minRequired1
  let minRequired : ℕ := if doorWeight > 80 then max minRequired2 4 else minRequired2
  if hingeCount < minRequired then
    ⟨false, some "Door requires minimum hinges"⟩
  else ⟨true, none⟩

/-- Source `validateOffsets`: each offset must be at least 100mm and the
available span must fit `(hingeCount - 2) * 150`mm. -/
noncomputable def validateOffsets (doorHeight topOffset bottomOffset : ℝ) (hingeCount : ℕ) :
    ValidationResult :=
  if topOffset < 100 then
    ⟨false, some "Top offset must be >= 100mm"⟩
  else if bottomOffset < 100 then
    ⟨false, some "Bottom offset must be >= 100mm"⟩
  else
    let availableSpace := doorHeight - topOffset - bottomOffset
    let minSpacingPerHinge : ℝ := 150
    let requiredSpace := ((hingeCount : ℝ) - 2) * minSpacingPerHinge
    if availableSpace < requiredSpace then
      ⟨false, some ("Insufficient space for " ++ toString hingeCount ++
        " hinges with current offsets")⟩
    else ⟨true, none⟩

/-- Optional placement rule overrides for hinges. -/
structure PlacementRules where
  topOffset : Option ℝ
  bottomOffset : Option ℝ
  distributionMode : Option DistributionMode

/-- Input record for `placeHinges`. -/
structure HingePlacementInput where
  doorHeight : ℝ
  doorWidth : ℝ
  leafThickness : ℝ
  hingeCount : ℕ
  hingeType : HingeType
  hingeSide : Side
  placementRules : Option PlacementRules

/-- The string stored in hinge placement metadata: the hinge type name. -/
def hingeTypeStr : HingeType → String
  | .butt => "butt"
  | .concealed => "concealed"
  | .piano => "piano"

/-- Source `placeHinges`.  Validates the hinge count (the estimated door
weight, computed by a helper absent from the sources, is passed in as a
parameter), short-circuits for piano hinges, computes Y positions with
`|| 150` / `|| 'even'` defaulting, then builds one placement per Y position
with butt/concealed position adjustments.  Note the source never invokes
`validateOffsets` here. -/
noncomputable def placeHinges (input : HingePlacementInput) (doorWeight : ℝ) :
    Except String (List HingePlacement) :=
  let validation := validateHingeCount input.doorHeight doorWeight input.hingeCount
  if validation.valid = false then
    .error (validation.error.getD "")
  else if input.hingeType = HingeType.piano then
    .ok [calculatePianoHingePlacement input.doorHeight input.doorWidth input.hingeSide
      ⟨30, true⟩]
  else
    match calculateHingeYPositions input.hingeCount input.doorHeight
        (jsOr (input.placementRules.bind fun r => r.topOffset) 150)
        (jsOr (input.placementRules.bind fun r => r.bottomOffset) 150)
        ((input.placementRules.bind fun r => r.distributionMode).getD .even) with
    | .error e => .error e
    | .ok yPositions =>
      let xPos := getHingeXPosition input.hingeSide input.doorWidth
      let zPos := getHingeZPosition input.hingeType input.leafThickness
      let rotation := getHingeRotation input.hingeSide (hingeTypeStr input.hingeType)
      .ok (yPositions.mapIdx fun i y =>
        let basePosition : Vec3 := ⟨xPos, y, zPos⟩
        let position :=
          match input.hingeType with
          | .butt => adjustButtHingePlacement basePosition input.hingeSide ⟨45, 75, 12⟩
          | .concealed =>
            adjustConcealedHingePlacement basePosition input.leafThickness ⟨35, 12, 95⟩
          | .piano => basePosition
        { id := some ("hinge_" ++ toString i)
          position := position
          rotation := rotation
          metadata := { index := some i, type := some (hingeTypeStr input.hingeType),
                        side := some input.hingeSide, yPosition := some y,
                        isPiano := none, length := none } })

/-- Lock type ('cylinder' | 'mortise' | 'deadbolt' | 'smart'). -/
inductive LockType where
  | cylinder
  | mortise
  | deadbolt
  | smart
deriving DecidableEq

/-- Input record for lock placement. -/
structure LockPlacementInput where
  doorHeight : ℝ
  doorWidth : ℝ
  leafThickness : ℝ
  lockType : LockType
  lockHeight : ℝ
  edgeOffset : ℝ
  edge : Side
  handleHeight : Option ℝ

/-- Source `getMinimumThicknessForLock`: cylinder 35, mortise 40,
deadbolt 38, smart 40 (mm). -/
def getMinimumThicknessForLock (lockType : LockType) : ℝ :=
  match lockType with
  | .cylinder => 35
  | .mortise => 40
  | .deadbolt => 38
  | .smart => 40

/-- Source `validateLockPlacement`: height within [800,1200], no hinge
closer than 150mm vertically (checked second, before the edge-offset rule),
edge offset within [50,90], leaf thickness at least the per-type minimum
(interpolated message parts elided). -/
noncomputable def validateLockPlacement (input : LockPlacementInput)
    (hingePlacements : List HingePlacement) : ValidationResult :=
  if input.lockHeight < 800 ∨ input.lockHeight > 1200 then
    ⟨false, some "Lock height must be between 800-1200mm"⟩
  else if hingePlacements.any fun hinge =>
      if |hinge.position.y - input.lockHeight| < 150 then true else false then
    ⟨false, some "Lock conflicts with hinge"⟩
  else if input.edgeOffset < 50 ∨ input.edgeOffset > 90 then
    ⟨false, some "Lock edge offset must be between 50-90mm"⟩
  else if input.leafThickness < getMinimumThicknessForLock input.lockType then
    ⟨false, some "Door thickness insufficient for lock type"⟩
  else ⟨true, none⟩

/-- A lock placement record.  The lock placement constructor (`placeLock`)
is not among the provided sources; handle coordination only reads
`position.y` from it. -/
structure LockPlacement where
  position : Vec3

/-- Handle type ('lever' | 'knob' | 'pull' | 'bar'). -/
inductive HandleType where
  | lever
  | knob
  | pull
  | bar
deriving DecidableEq

/-- Requested handle sides ('both' | 'exterior' | 'interior'). -/
inductive HandleSideSpec where
  | both
  | exterior
  | interior
deriving DecidableEq

/-- A single mounting side of the door. -/
inductive MountSide where
  | exterior
  | interior
deriving DecidableEq

/-- Input record for handle placement. -/
structure HandlePlacementInput where
  doorHeight : ℝ
  doorWidth : ℝ
  leafThickness : ℝ
  handleType : HandleType
  handleStyle : String
  handleHeight : ℝ
  side : HandleSideSpec
  lockHeight : Option ℝ
  edge : Side

/-- Source `calculateHandleDepth`: lever/knob mount flush (0 exterior,
`-leafThickness` interior); pull stands off 40mm, bar 50mm beyond the
respective face. -/
noncomputable def calculateHandleDepth (handleType : HandleType) (leafThickness : ℝ)
    (side : MountSide) : ℝ :=
  match handleType with
  | .lever | .knob =>
    match side with
    | .exterior => 0
    | .interior => -leafThickness
  | .pull =>
    let standoffDistance : ℝ := 40
    match side with
    | .exterior => standoffDistance
    | .interior => -(leafThickness + standoffDistance)
  | .bar =>
    let barStandoff : ℝ := 50
    match side with
    | .exterior => barStandoff
    | .interior => -(leafThickness + barStandoff)

/-- Source `calculateHandlePosition`: the edge offset is
`input.lockHeight ? 60 : 70` (keyed on the truthiness of the optional
lockHeight field), mirrored by edge; Y is the input handle height; Z comes
from `calculateHandleDepth`. -/
noncomputable def calculateHandlePosition (input : HandlePlacementInput) (side : MountSide) :
    Vec3 :=
  let edgeOffset : ℝ := if jsTruthy input.lockHeight then 60 else 70
  let xPos : ℝ :=
    match input.edge with
    | .left => edgeOffset
    | .right => input.doorWidth - edgeOffset
  let yPos := input.handleHeight
  let zPos := calculateHandleDepth input.handleType input.leafThickness side
  ⟨xPos, yPos, zPos⟩

/-- Source `coordinateHandleWithLock`: when the handle input's `lockHeight`
field is falsy the input is returned unchanged; otherwise the handle height
is overwritten with the lock placement's Y. -/
noncomputable def coordinateHandleWithLock (handleInput : HandlePlacementInput)
    (lockPlacement : LockPlacement) : HandlePlacementInput :=
  if jsTruthy handleInput.lockHeight = false then
    handleInput
  else
    { handleInput with handleHeight := lockPlacement.position.y }

/-- Bolt type ('flush' | 'surface' | 'automatic'). -/
inductive BoltType where
  | flush
  | surface
  | automatic
deriving DecidableEq

/-- Requested bolt position ('top' | 'bottom'). -/
inductive BoltPos where
  | top
  | bottom
deriving DecidableEq

/-- The string used in bolt ids and metadata for a position. -/
def boltPosStr : BoltPos → String
  | .top => "top"
  | .bottom => "bottom"

/-- The string stored in bolt placement metadata: the bolt type name. -/
def boltTypeStr : BoltType → String
  | .flush => "flush"
  | .surface => "surface"
  | .automatic => "automatic"

/-- Input record for inactive-leaf bolt placement. -/
structure BoltPlacementInput where
  doorHeight : ℝ
  doorWidth : ℝ
  leafThickness : ℝ
  boltType : BoltType
  positions : List BoltPos
  topOffset : ℝ
  bottomOffset : ℝ
  meetingEdge : Side

/-- Bolt placement metadata (position, type). -/
structure BoltMetadata where
  position : BoltPos
  type : String

/-- A bolt placement record. -/
structure BoltPlacement where
  id : String
  position : Vec3
  rotation : Euler
  metadata : BoltMetadata

/-- Source `calculateBoltDepth`: flush/automatic recess to
`-leafThickness / 2`, surface mounts at 0. -/
noncomputable def calculateBoltDepth (boltType : BoltType) (leafThickness : ℝ) : ℝ :=
  match boltType with
  | .flush => -leafThickness / 2
  | .surface => 0
  | .automatic => -leafThickness / 2

/-- Source `calculateBoltRotation`: flush/automatic bolts rotate 180 degrees
about Z for the bottom position; surface bolts carry no rotation. -/
noncomputable def calculateBoltRotation (position : BoltPos) (boltType : BoltType) : Euler :=
  let rotationZ : ℝ :=
    match boltType with
    | .flush | .automatic =>
      match position with
      | .top => 0
      | .bottom => Real.pi
    | .surface => 0
  ⟨0, 0, rotationZ, "XYZ"⟩

/-- Source `calculateBoltPositions`: one placement per requested position;
Y is `doorHeight - topOffset` (top) or `bottomOffset` (bottom); X is a 40mm
inset from the meeting edge; Z and rotation come from the bolt type. -/
noncomputable def calculateBoltPositions (input : BoltPlacementInput) : List BoltPlacement :=
  input.positions.map fun position =>
    let yPos : ℝ :=
      match position with
      | .top => input.doorHeight - input.topOffset
      | .bottom => input.bottomOffset
    let xPos : ℝ :=
      match input.meetingEdge with
      | .left => 40
      | .right => input.doorWidth - 40
    let zPos := calculateBoltDepth input.boltType input.leafThickness
    { id := "bolt_" ++ boltPosStr position
      position := ⟨xPos, yPos, zPos⟩
      rotation := calculateBoltRotation position input.boltType
      metadata := { position := position, type := boltTypeStr input.boltType } }

/-- Source `validateBoltPlacement`: offsets within [150,300], at least one
position requested, and flush/automatic types need 40mm thickness. -/
noncomputable def validateBoltPlacement (input : BoltPlacementInput) : ValidationResult :=
  if input.topOffset < 150 ∨ input.topOffset > 300 then
    ⟨false, some "Top bolt offset must be between 150-300mm"⟩
  else if input.bottomOffset < 150 ∨ input.bottomOffset > 300 then
    ⟨false, some "Bottom bolt offset must be between 150-300mm"⟩
  else if input.positions.length = 0 then
    ⟨false, some "At least one bolt position required"⟩
  else if (input.boltType = BoltType.flush ∨ input.boltType = BoltType.automatic) ∧
      input.leafThickness < 40 then
    ⟨false, some "Flush/automatic bolts require minimum 40mm door thickness"⟩
  else ⟨true, none⟩

/-- The metadata slot the conflict detector reads from each hardware item. -/
structure ConflictItemMetadata where
  type : String

/-- The dynamic shape the conflict detector relies on: an id, a position and
`metadata.type`.  Hinge placements feed it their hinge-type string
('butt' | 'concealed' | 'piano'), bolts their bolt-type string. -/
structure HardwareItem where
  id : String
  position : Vec3
  metadata : ConflictItemMetadata

/-- Source `distanceTo`: Euclidean distance between two positions. -/
noncomputable def distanceTo (p q : Vec3) : ℝ :=
  Real.sqrt ((p.x - q.x) ^ 2 + (p.y - q.y) ^ 2 + (p.z - q.z) ^ 2)

/-- Source `minClearance` table, keyed `"kind-kind"` with the two names in
sorted order. -/
def minClearance (key : String) : Option ℝ :=
  if key = "hinge-lock" then some 150
  else if key = "hinge-handle" then some 100
  else if key = "hinge-bolt" then some 200
  else if key = "lock-handle" then some 50
  else if key = "lock-bolt" then some 300
  else if key = "handle-bolt" then some 200
  else none

/-- Lexicographic comparison of two character sequences, the order
JavaScript's default array sort applies to strings. -/
def jsStringLt : List Char → List Char → Bool
  | [], [] => false
  | [], _ :: _ => true
  | _ :: _, [] => false
  | a :: as, c :: cs => if a < c then true else if c < a then false else jsStringLt as cs

/-- Source key construction: the two `metadata.type` strings are sorted
(ascending, JavaScript's default sort) and joined with a dash. -/
def clearanceKey (t1 t2 : String) : String :=
  if jsStringLt t2.data t1.data then t2 ++ "-" ++ t1 else t1 ++ "-" ++ t2

/-- A recorded hardware conflict. -/
structure HardwareConflict where
  ctype : String
  items : String × String
  distance : ℝ
  severity : String

/-- Body of the pair loop in `detectHardwareConflicts`: record a conflict
when the distance is below the required clearance (`minClearance[key] || 100`),
with severity 'error' below half the clearance and 'warning' otherwise. -/
noncomputable def checkPair (item1 item2 : HardwareItem) : Option HardwareConflict :=
  let distance := distanceTo item1.position item2.position
  let required := (minClearance (clearanceKey item1.metadata.type item2.metadata.type)).getD 100
  if distance < required then
    some { ctype := if distance < required * 0.5 then "overlap" else "proximity"
           items := (item1.id, item2.id)
           distance := distance
           severity := if distance < required * 0.5 then "error" else "warning" }
  else none

/-- The `i < j` double loop over all hardware pairs. -/
noncomputable def conflictPairs : List HardwareItem → List HardwareConflict
  | [] => []
  | item :: rest => rest.filterMap (checkPair item) ++ conflictPairs rest

/-- Source `detectHardwareConflicts`: concatenates hinges, the optional lock,
handles and bolts, then checks every unordered pair. -/
noncomputable def detectHardwareConflicts (hinges : List HardwareItem)
    (lock : Option HardwareItem) (handles : List HardwareItem)
    (bolts : List HardwareItem) : List HardwareConflict :=
  let allHardware :=
    hinges ++ (match lock with | some l => [l] | none => []) ++ handles ++ bolts
  conflictPairs allHardware

/-- Concrete accepted butt-hinge input: 2000x900mm door, 44mm leaf,
2 butt hinges on the left edge, default rules. -/
def buttLeftInput : HingePlacementInput :=
  ⟨2000, 900, 44, 2, .butt, .left, none⟩

/-- Concrete accepted concealed-hinge input: 2000x900mm door, 40mm leaf,
2 concealed hinges on the left edge, default rules. -/
def concealedInput : HingePlacementInput :=
  ⟨2000, 900, 40, 2, .concealed, .left, none⟩

/-- Concrete accepted piano-hinge input: 2000x900mm door, 44mm leaf,
right edge. -/
def pianoInput : HingePlacementInput :=
  ⟨2000, 900, 44, 2, .piano, .right, none⟩

/-- Concrete hinge input whose top offset (50mm) violates the offset rules. -/
def lowTopOffsetInput : HingePlacementInput :=
  ⟨2000, 900, 44, 2, .butt, .left, some ⟨some 50, some 150, some .even⟩⟩

/-- Concrete lock input at 900mm height with otherwise valid parameters. -/
def lockInput900 : LockPlacementInput :=
  ⟨2000, 900, 44, .cylinder, 900, 60, .left, none⟩

/-- A hinge placement at Y = 1000mm. -/
def hingeAt1000 : HingePlacement :=
  { id := some "hinge_1"
    position := ⟨0, 1000, 0⟩
    rotation := ⟨0, 0, 0, "XYZ"⟩
    metadata := ⟨some 1, some "butt", some .left, some 1000, none, none⟩ }

/-- Handle input without a lockHeight field (handle height 1050mm). -/
def handleNoLockHeight : HandlePlacementInput :=
  ⟨2000, 900, 44, .lever, "modern", 1050, .both, none, .left⟩

/-- Handle input carrying lockHeight = 900 (handle height 1050mm). -/
def handleWithLockHeight : HandlePlacementInput :=
  ⟨2000, 900, 44, .lever, "modern", 1050, .both, some 900, .left⟩

/-- A lock placement at Y = 900mm. -/
def lockAt900 : LockPlacement :=
  ⟨⟨60, 900, -22⟩⟩

/-- Concrete accepted bolt input: flush bolts top and bottom, 200mm offsets,
meeting edge left, 44mm leaf on a 2400mm door. -/
def boltInput : BoltPlacementInput :=
  ⟨2400, 900, 44, .flush, [.top, .bottom], 200, 200, .left⟩

/-- A hinge hardware item as produced by `placeHinges` for a butt hinge. -/
def hingeItem : HardwareItem :=
  ⟨"hinge_0", ⟨0, 150, 0⟩, ⟨"butt"⟩⟩

/-- A bolt hardware item as produced by `calculateBoltPositions` for a flush
bolt, 100mm above the hinge item. -/
def boltItem : HardwareItem :=
  ⟨"bolt_top", ⟨0, 250, 0⟩, ⟨"flush"⟩⟩

/-! ### Helper lemmas about the hinge Y-position computation -/

/-- Evaluation of `calculateHingeYPositions` at exactly two hinges. -/
theorem calcY_two (H t b : ℝ) (mode : DistributionMode) :
    calculateHingeYPositions 2 H t b mode = .ok [b, H - t] := by
  simp [calculateHingeYPositions]

/-- Evaluation of `calculateHingeYPositions` at three or more hinges: the
spliced list `bottom :: middles ++ [top]` is sorted. -/
theorem calcY_three (k : ℕ) (H t b : ℝ) (mode : DistributionMode) :
    calculateHingeYPositions (k + 3) H t b mode =
      .ok (List.insertionSort (· ≤ ·)
        (b :: ((List.range (k + 1)).map fun j => hingeMiddleY mode (k + 3) H t b (j + 1)) ++
          [H - t])) := by
  have h1 : ¬ (k + 3 < 2) := by omega
  have h2 : ¬ (k + 3 = 2) := by omega
  simp only [calculateHingeYPositions, if_neg h1, if_neg h2]
  rfl

/-- A map over `range (m + 2)` split into its head, middle and last parts. -/
theorem range_map_split {f : ℕ → ℝ} (m : ℕ) :
    (List.range (m + 2)).map f =
      f 0 :: ((List.range m).map fun j => f (j + 1)) ++ [f (m + 1)] := by
  rw [show m + 2 = (m + 1) + 1 from rfl, List.range_succ, List.map_append,
    List.range_succ_eq_map]
  simp [List.map_map, Function.comp, Nat.succ_eq_add_one]

/-- The pre-sort even-mode list is an arithmetic progression over the whole
index range. -/
theorem evenY_map_form (k : ℕ) (H t b : ℝ) :
    (b :: ((List.range (k + 1)).map fun j => hingeMiddleY .even (k + 3) H t b (j + 1)) ++
        [H - t]) =
      (List.range (k + 3)).map fun i : ℕ => b + ((H - t - b) / ((k : ℝ) + 2)) * (i : ℝ) := by
  have hne : ((k : ℝ) + 2) ≠ 0 := by positivity
  rw [show k + 3 = (k + 1) + 2 from rfl, range_map_split (m := k + 1)]
  congr 1
  · congr 1
    · norm_num
    · refine List.map_congr_left fun j _ => ?_
      simp only [hingeMiddleY]
      rw [show ((k + 1 + 2 : ℕ) : ℝ) - 1 = (k : ℝ) + 2 by push_cast; ring]
  · have hlast : H - t = b + (H - t - b) / ((k : ℝ) + 2) * ((k + 1 + 1 : ℕ) : ℝ) := by
      push_cast
      field_simp
      ring
    conv_lhs => rw [hlast]

/-- The arithmetic-progression list is sorted when the span is nonnegative. -/
theorem evenY_sorted_map (k : ℕ) (H t b : ℝ) (hs : 0 ≤ H - t - b) :
    List.Sorted (· ≤ ·)
      ((List.range (k + 3)).map fun i : ℕ => b + ((H - t - b) / ((k : ℝ) + 2)) * (i : ℝ)) := by
  have hs' : 0 ≤ (H - t - b) / ((k : ℝ) + 2) := by positivity
  rw [List.Sorted, List.pairwise_map]
  refine (List.pairwise_lt_range _).imp ?_
  intro a c hac
  have hle : (a : ℝ) ≤ (c : ℝ) := by exact_mod_cast hac.le
  nlinarith [mul_le_mul_of_nonneg_left hle hs']

/-- Strict bounds on an even-mode middle hinge position. -/
theorem middle_bounds_even (k : ℕ) (H t b : ℝ) (hspan : 0 < H - t - b) (i : ℕ)
    (h1 : 1 ≤ i) (h2 : i ≤ k + 1) :
    b < hingeMiddleY .even (k + 3) H t b i ∧ hingeMiddleY .even (k + 3) H t b i < H - t := by
  have hcast : ((k + 3 : ℕ) : ℝ) - 1 = (k : ℝ) + 2 := by push_cast; ring
  simp only [hingeMiddleY, hcast]
  have hkpos : (0 : ℝ) < (k : ℝ) + 2 := by positivity
  have hs : 0 < ((H - t) - b) / ((k : ℝ) + 2) := div_pos hspan hkpos
  have hipos : (0 : ℝ) < (i : ℝ) := by exact_mod_cast h1
  have hilt : (i : ℝ) < (k : ℝ) + 2 := by exact_mod_cast by omega
  constructor
  · nlinarith
  · have hmul : (((H - t) - b) / ((k : ℝ) + 2)) * (i : ℝ) <
        (((H - t) - b) / ((k : ℝ) + 2)) * ((k : ℝ) + 2) :=
      mul_lt_mul_of_pos_left hilt hs
    rw [div_mul_cancel₀ _ (ne_of_gt hkpos)] at hmul
    linarith

/-- Strict bounds on a weighted-mode middle hinge position: the power-law
weight `(i / (n - 1)) ^ 0.8` lies strictly between 0 and 1. -/
theorem middle_bounds_weighted (k : ℕ) (H t b : ℝ) (hspan : 0 < H - t - b) (i : ℕ)
    (h1 : 1 ≤ i) (h2 : i ≤ k + 1) :
    b < hingeMiddleY .weighted (k + 3) H t b i ∧
      hingeMiddleY .weighted (k + 3) H t b i < H - t := by
  have hcast : ((k + 3 : ℕ) : ℝ) - 1 = (k : ℝ) + 2 := by push_cast; ring
  simp only [hingeMiddleY, hcast]
  have hkpos : (0 : ℝ) < (k : ℝ) + 2 := by positivity
  have hipos : (0 : ℝ) < (i : ℝ) := by exact_mod_cast h1
  have hbase : 0 < (i : ℝ) / ((k : ℝ) + 2) := div_pos hipos hkpos
  have hbase1 : (i : ℝ) / ((k : ℝ) + 2) < 1 := by
    rw [div_lt_one hkpos]
    exact_mod_cast by omega
  have hw0 : 0 < ((i : ℝ) / ((k : ℝ) + 2)) ^ (0.8 : ℝ) :=
    Real.rpow_pos_of_pos hbase _
  have hw1 : ((i : ℝ) / ((k : ℝ) + 2)) ^ (0.8 : ℝ) < 1 :=
    Real.rpow_lt_one hbase.le hbase1 (by norm_num)
  constructor
  · nlinarith
  · nlinarith

/-- The middle-hinge list is sorted in both distribution modes. -/
theorem middles_sorted (mode : DistributionMode) (k : ℕ) (H t b : ℝ)
    (hspan : 0 ≤ H - t - b) :
    List.Sorted (· ≤ ·)
      ((List.range (k + 1)).map fun j => hingeMiddleY mode (k + 3) H t b (j + 1)) := by
  have hcast : ((k + 3 : ℕ) : ℝ) - 1 = (k : ℝ) + 2 := by push_cast; ring
  have hkpos : (0 : ℝ) < (k : ℝ) + 2 := by positivity
  rw [List.Sorted, List.pairwise_map]
  refine (List.pairwise_lt_range _).imp ?_
  intro a c hac
  have hle : ((a : ℝ) + 1) ≤ ((c : ℝ) + 1) := by
    have : (a : ℝ) ≤ (c : ℝ) := by exact_mod_cast hac.le
    linarith
  cases mode with
  | even =>
    simp only [hingeMiddleY, hcast]
    have hs : 0 ≤ ((H - t) - b) / ((k : ℝ) + 2) := div_nonneg hspan hkpos.le
    have := mul_le_mul_of_nonneg_left hle hs
    push_cast
    nlinarith
  | weighted =>
    simp only [hingeMiddleY, hcast]
    have hdiv : ((a : ℝ) + 1) / ((k : ℝ) + 2) ≤ ((c : ℝ) + 1) / ((k : ℝ) + 2) := by
      gcongr
    have hnn : 0 ≤ ((a : ℝ) + 1) / ((k : ℝ) + 2) := by positivity
    have hw := Real.rpow_le_rpow hnn hdiv (by norm_num : (0 : ℝ) ≤ 0.8)
    have := mul_le_mul_of_nonneg_left hw hspan
    push_cast
    nlinarith

/-- Sortedness and strict interior bounds for `b :: mids ++ [t']` when all
middle values lie strictly between the endpoints. -/
theorem cons_append_props (b t' : ℝ) (mids : List ℝ)
    (hmono : List.Sorted (· ≤ ·) mids)
    (hlb : ∀ x ∈ mids, b < x) (hub : ∀ x ∈ mids, x < t') (hbt : b < t') :
    List.Sorted (· ≤ ·) (b :: mids ++ [t']) ∧
    (∀ (i : ℕ) (h : i < (b :: mids ++ [t']).length), 0 < i →
      i + 1 < (b :: mids ++ [t']).length →
      b < (b :: mids ++ [t']).get ⟨i, h⟩ ∧ (b :: mids ++ [t']).get ⟨i, h⟩ < t') := by
  constructor
  · rw [List.cons_append, List.sorted_cons]
    constructor
    · intro x hx
      rcases List.mem_append.mp hx with h | h
      · exact (hlb x h).le
      · rw [List.mem_singleton] at h
        subst h
        exact hbt.le
    · rw [List.Sorted, List.pairwise_append]
      refine ⟨hmono, List.sorted_singleton _, fun a ha c hc => ?_⟩
      rw [List.mem_singleton] at hc
      subst hc
      exact (hub a ha).le
  · intro i h hpos hlt
    obtain ⟨j, rfl⟩ : ∃ j, i = j + 1 := ⟨i - 1, by omega⟩
    have hj : j < mids.length := by
      simp only [List.cons_append, List.length_cons, List.length_append,
        List.length_singleton, List.length_nil] at hlt
      omega
    simp only [List.get_eq_getElem, List.cons_append, List.getElem_cons_succ]
    rw [List.getElem_append_left hj]
    exact ⟨hlb _ (List.getElem_mem hj), hub _ (List.getElem_mem hj)⟩

/-! ### Claim C2 and C10: hinge Y-position distribution -/

/-- Claim C2: for every input with hingeCount n >= 2 and even distribution
mode (and offsets that fit within the door height, which offset validation
guarantees), the returned Y positions are an ascending list whose first
element is bottomOffset, whose last element is doorHeight - topOffset, and
whose consecutive spacings all equal
(doorHeight - topOffset - bottomOffset) / (n - 1); in particular
hingeCount = 3, doorHeight = 2400, bottomOffset = 150, topOffset = 150
yields [150, 1200, 2250]. -/
theorem hinge_even_spacing :
    (∀ (hingeCount : ℕ) (doorHeight topOffset bottomOffset : ℝ),
        2 ≤ hingeCount → topOffset + bottomOffset ≤ doorHeight →
        ∃ l, calculateHingeYPositions hingeCount doorHeight topOffset bottomOffset .even =
            .ok l ∧
          l.length = hingeCount ∧
          l.Chain' (· ≤ ·) ∧
          l.head? = some bottomOffset ∧
          l.getLast? = some (doorHeight - topOffset) ∧
          l.Chain' (fun a c => c - a =
            (doorHeight - topOffset - bottomOffset) / ((hingeCount : ℝ) - 1))) ∧
    calculateHingeYPositions 3 2400 150 150 .even = .ok [150, 1200, 2250] := by
  constructor
  · intro n H t b hn hfit
    have hs : 0 ≤ H - t - b := by linarith
    rcases Nat.lt_or_ge n 3 with h3 | h3
    · obtain rfl : n = 2 := by omega
      refine ⟨[b, H - t], calcY_two H t b .even, rfl, ?_, rfl, rfl, ?_⟩
      · have : b ≤ H - t := by linarith
        simp [List.chain'_cons, List.chain'_singleton, this]
      · simp only [List.chain'_cons, List.chain'_singleton, and_true]
        norm_num
    · obtain ⟨k, rfl⟩ : ∃ k, n = k + 3 := ⟨n - 3, by omega⟩
      have heq := calcY_three k H t b .even
      rw [evenY_map_form, List.Sorted.insertionSort_eq (evenY_sorted_map k H t b hs)] at heq
      have hcast : ((k + 3 : ℕ) : ℝ) - 1 = (k : ℝ) + 2 := by push_cast; ring
      refine ⟨_, heq, by simp, ?_, ?_, ?_, ?_⟩
      · exact List.chain'_iff_pairwise.mpr (evenY_sorted_map k H t b hs)
      · rw [← evenY_map_form, List.cons_append]
        rfl
      · rw [← evenY_map_form]
        exact List.getLast?_concat _
      · rw [List.chain'_iff_get]
        intro i hi
        simp only [List.get_eq_getElem, List.getElem_map, List.getElem_range, hcast]
        push_cast
        ring
  · show calculateHingeYPositions (0 + 3) 2400 150 150 .even = .ok [150, 1200, 2250]
    have heq := calcY_three 0 2400 150 150 .even
    rw [evenY_map_form,
      List.Sorted.insertionSort_eq (evenY_sorted_map 0 2400 150 150 (by norm_num))] at heq
    rw [heq]
    norm_num [List.range_succ, List.range_zero]

/-- Witness for C2: the spec's two-hinge scenario on a 2000mm door. -/
theorem hinge_even_spacing_witness :
    ∃ l, calculateHingeYPositions 2 2000 150 150 .even = .ok l ∧
      l.length = 2 ∧
      l.Chain' (· ≤ ·) ∧
      l.head? = some 150 ∧
      l.getLast? = some (2000 - 150) ∧
      l.Chain' (fun a c => c - a = (2000 - 150 - 150) / (((2 : ℕ) : ℝ) - 1)) :=
  hinge_even_spacing.1 2 2000 150 150 (by norm_num) (by norm_num)

/-- Claim C10: for hingeCount >= 2 and topOffset + bottomOffset < doorHeight,
in both distribution modes, the returned list has exactly hingeCount
elements, is sorted ascending, starts at bottomOffset, ends at
doorHeight - topOffset, and every intermediate element lies strictly
between the two endpoints. -/
theorem hinge_y_distribution_invariants :
    ∀ (hingeCount : ℕ) (doorHeight topOffset bottomOffset : ℝ) (mode : DistributionMode),
      2 ≤ hingeCount → topOffset + bottomOffset < doorHeight →
      ∃ l, calculateHingeYPositions hingeCount doorHeight topOffset bottomOffset mode =
          .ok l ∧
        l.length = hingeCount ∧
        l.Sorted (· ≤ ·) ∧
        l.head? = some bottomOffset ∧
        l.getLast? = some (doorHeight - topOffset) ∧
        ∀ (i : ℕ) (h : i < l.length), 0 < i → i + 1 < l.length →
          bottomOffset < l.get ⟨i, h⟩ ∧ l.get ⟨i, h⟩ < doorHeight - topOffset := by
  intro n H t b mode hn hfit
  have hs : 0 < H - t - b := by linarith
  rcases Nat.lt_or_ge n 3 with h3 | h3
  · obtain rfl : n = 2 := by omega
    refine ⟨[b, H - t], calcY_two H t b mode, rfl, ?_, rfl, rfl, ?_⟩
    · have : b ≤ H - t := by linarith
      simp [List.sorted_cons, this]
    · intro i h hpos hlt
      simp only [List.length_cons, List.length_singleton, List.length_nil] at hlt
      omega
  · obtain ⟨k, rfl⟩ : ∃ k, n = k + 3 := ⟨n - 3, by omega⟩
    have hlb : ∀ x ∈ (List.range (k + 1)).map
        (fun j => hingeMiddleY mode (k + 3) H t b (j + 1)), b < x := by
      intro x hx
      rw [List.mem_map] at hx
      obtain ⟨j, hj, rfl⟩ := hx
      rw [List.mem_range] at hj
      cases mode with
      | even => exact (middle_bounds_even k H t b hs (j + 1) (by omega) (by omega)).1
      | weighted => exact (middle_bounds_weighted k H t b hs (j + 1) (by omega) (by omega)).1
    have hub : ∀ x ∈ (List.range (k + 1)).map
        (fun j => hingeMiddleY mode (k + 3) H t b (j + 1)), x < H - t := by
      intro x hx
      rw [List.mem_map] at hx
      obtain ⟨j, hj, rfl⟩ := hx
      rw [List.mem_range] at hj
      cases mode with
      | even => exact (middle_bounds_even k H t b hs (j + 1) (by omega) (by omega)).2
      | weighted => exact (middle_bounds_weighted k H t b hs (j + 1) (by omega) (by omega)).2
    have hprops := cons_append_props b (H - t)
      ((List.range (k + 1)).map fun j => hingeMiddleY mode (k + 3) H t b (j + 1))
      (middles_sorted mode k H t b hs.le) hlb hub (by linarith)
    have heq := calcY_three k H t b mode
    rw [List.Sorted.insertionSort_eq hprops.1] at heq
    refine ⟨_, heq, ?_, hprops.1, ?_, ?_, hprops.2⟩
    · simp only [List.cons_append, List.length_cons, List.length_append,
        List.length_singleton, List.length_nil, List.length_map, List.length_range]
    · rw [List.cons_append]
      rfl
    · exact List.getLast?_concat _

/-- Witness for C10: three weighted-mode hinges on a 2400mm door. -/
theorem hinge_y_distribution_invariants_witness :
    ∃ l, calculateHingeYPositions 3 2400 150 150 .weighted = .ok l ∧
      l.length = 3 ∧
      l.Sorted (· ≤ ·) ∧
      l.head? = some 150 ∧
      l.getLast? = some (2400 - 150) ∧
      ∀ (i : ℕ) (h : i < l.length), 0 < i → i + 1 < l.length →
        (150 : ℝ) < l.get ⟨i, h⟩ ∧ l.get ⟨i, h⟩ < 2400 - 150 :=
  hinge_y_distribution_invariants 3 2400 150 150 .weighted (by norm_num) (by norm_num)

/-! ### Claim C1 and C7: hinge X and Z coordinates after type refinement -/

/-- Claim C1 (amended): for every accepted input, the X coordinate of every
returned placement equals the hinge-side edge only for piano hinges; butt
hinges are shifted by half the 12mm barrel diameter (left: edge - 6, right:
edge + 6) and concealed hinges by the 5mm edge inset (+5 when the base edge
X is 0, -5 otherwise). -/
theorem hinge_x_final_position :
    ∀ (input : HingePlacementInput) (doorWeight : ℝ) (ps : List HingePlacement),
      placeHinges input doorWeight = .ok ps → ∀ p ∈ ps,
        p.position.x =
          (match input.hingeType, input.hingeSide with
           | .piano, .left => 0
           | .piano, .right => input.doorWidth
           | .butt, .left => 0 - 6
           | .butt, .right => input.doorWidth + 6
           | .concealed, .left => (0 : ℝ) + 5
           | .concealed, .right =>
             input.doorWidth + (if input.doorWidth = 0 then 5 else -5)) := by
  intro input w ps hok p hp
  simp only [placeHinges] at hok
  split at hok
  · simp at hok
  · split at hok
    next hpiano =>
      rw [Except.ok.injEq] at hok
      subst hok
      rw [List.mem_singleton] at hp
      subst hp
      rw [hpiano]
      cases hS : input.hingeSide <;>
        simp [calculatePianoHingePlacement, hS]
    next hnotpiano =>
      split at hok
      next e heq => simp at hok
      next ys hys =>
        rw [Except.ok.injEq] at hok
        subst hok
        rw [List.mem_mapIdx] at hp
        obtain ⟨i, hi, hfi⟩ := hp
        subst hfi
        cases hT : input.hingeType with
        | piano => exact absurd hT hnotpiano
        | butt =>
          cases hS : input.hingeSide <;>
            simp [hT, hS, adjustButtHingePlacement, getHingeXPosition] <;> norm_num
        | concealed =>
          cases hS : input.hingeSide <;>
            simp [hT, hS, adjustConcealedHingePlacement, getHingeXPosition]

/-- Witness for C1's amended theorem: an accepted left-side butt-hinge input
whose placements all sit at X = 0 - 6. -/
theorem hinge_x_final_position_witness :
    ∃ ps, placeHinges buttLeftInput 30 = .ok ps ∧ ∀ p ∈ ps, p.position.x = 0 - 6 := by
  have hok : ∃ ps, placeHinges buttLeftInput 30 = .ok ps := by
    simp only [placeHinges, buttLeftInput]
    norm_num [validateHingeCount, jsOr, calcY_two]
    rw [if_neg (show ¬(HingeType.butt = HingeType.piano) by decide)]
    exact ⟨_, rfl⟩
  obtain ⟨ps, hps⟩ := hok
  refine ⟨ps, hps, fun p hp => ?_⟩
  have h := hinge_x_final_position buttLeftInput 30 ps hps p hp
  simpa [buttLeftInput] using h

/-- Counterexample to C1 as stated: an input accepted by validation whose
butt-hinge placements sit at X = -6, not at the hinge-side edge X = 0. -/
theorem hinge_x_not_pinned_counterexample :
    (placeHinges buttLeftInput 30).map (List.map fun p => p.position.x) =
      .ok [-6, -6] ∧ ((-6 : ℝ) ≠ 0) := by
  refine ⟨?_, by norm_num⟩
  simp only [placeHinges, buttLeftInput]
  norm_num [validateHingeCount, jsOr, calcY_two, List.mapIdx_cons, List.mapIdx_nil,
    adjustButtHingePlacement, getHingeXPosition, getHingeZPosition, Except.map]
  rw [if_neg (show ¬(HingeType.butt = HingeType.piano) by decide)]
  simp

/-- Claim C7 (amended): the concealed-hinge refinement replaces the base Z
value -(leafThickness - 10) of `getHingeZPosition` with the cup-centre depth
-(cupDepth / 2) = -6, so every accepted concealed placement ends at Z = -6. -/
theorem concealed_z_final :
    (∀ (input : HingePlacementInput) (doorWeight : ℝ) (ps : List HingePlacement),
        input.hingeType = .concealed → placeHinges input doorWeight = .ok ps →
        ∀ p ∈ ps, p.position.z = -6) ∧
    ∀ leafThickness : ℝ,
      getHingeZPosition .concealed leafThickness = -(leafThickness - 10) := by
  constructor
  · intro input w ps hT hok p hp
    simp only [placeHinges] at hok
    split at hok
    · simp at hok
    · split at hok
      next hpiano =>
        rw [hT] at hpiano
        simp at hpiano
      next hnotpiano =>
        split at hok
        next e heq => simp at hok
        next ys hys =>
          rw [Except.ok.injEq] at hok
          subst hok
          rw [List.mem_mapIdx] at hp
          obtain ⟨i, hi, hfi⟩ := hp
          subst hfi
          simp [hT, adjustConcealedHingePlacement]
          norm_num
  · intro lt
    simp [getHingeZPosition]

/-- Witness for C7's amended theorem: an accepted concealed-hinge input whose
placements all end at Z = -6. -/
theorem concealed_z_final_witness :
    ∃ ps, placeHinges concealedInput 30 = .ok ps ∧ ∀ p ∈ ps, p.position.z = -6 := by
  have hok : ∃ ps, placeHinges concealedInput 30 = .ok ps := by
    simp only [placeHinges, concealedInput]
    norm_num [validateHingeCount, jsOr, calcY_two]
    rw [if_neg (show ¬(HingeType.concealed = HingeType.piano) by decide)]
    exact ⟨_, rfl⟩
  obtain ⟨ps, hps⟩ := hok
  exact ⟨ps, hps, fun p hp =>
    concealed_z_final.1 concealedInput 30 ps (by simp [concealedInput]) hps p hp⟩

/-- Counterexample to C7 as stated: an accepted concealed input on a 40mm
leaf ends at Z = -6, not -(40 - 10) = -30. -/
theorem concealed_z_counterexample :
    (placeHinges concealedInput 30).map (List.map fun p => p.position.z) =
      .ok [-6, -6] ∧ ((-6 : ℝ) ≠ -(40 - 10)) := by
  refine ⟨?_, by norm_num⟩
  simp only [placeHinges, concealedInput]
  norm_num [validateHingeCount, jsOr, calcY_two, List.mapIdx_cons, List.mapIdx_nil,
    adjustConcealedHingePlacement, getHingeXPosition, getHingeZPosition, Except.map]
  rw [if_neg (show ¬(HingeType.concealed = HingeType.piano) by decide)]
  simp

/-! ### Claim C9: piano hinge placement -/

/-- Claim C9 evaluation: on an accepted piano input, `placeHinges` returns a
single placement at the hinge-side edge, vertically centred, at Z = 0, with
metadata.length = doorHeight — but with no id and with none of the
index/type/side/yPosition metadata the declared placement interface
requires. -/
theorem piano_placement_missing_contract :
    placeHinges pianoInput 30 =
      .ok [{ id := none
             position := ⟨900, 1000, 0⟩
             rotation := ⟨0, -(Real.pi / 2), 0, "XYZ"⟩
             metadata := { index := none, type := none, side := none, yPosition := none,
                           isPiano := some true, length := some 2000 } }] := by
  simp only [placeHinges, pianoInput]
  norm_num [validateHingeCount, calculatePianoHingePlacement, getHingeRotation]

/-! ### Claim C6: offset validation is never enforced by placeHinges -/

/-- Claim C6 evaluation: `validateOffsets` rejects topOffset = 50 < 100, yet
`placeHinges` — which never invokes it — succeeds on the same input and
returns two placements instead of failing. -/
theorem offsets_validation_not_enforced :
    (validateOffsets 2000 50 150 2).valid = false ∧
    (placeHinges lowTopOffsetInput 30).map List.length = .ok 2 := by
  constructor
  · norm_num [validateOffsets]
  · simp only [placeHinges, lowTopOffsetInput]
    norm_num [validateHingeCount, jsOr, calcY_two]
    rw [if_neg (show ¬(HingeType.butt = HingeType.piano) by decide)]
    simp [Except.map]

/-! ### Claim C4: the lock placement validator -/

/-- Claim C4: the lock validator fails exactly when the lock height is
outside [800, 1200], the edge offset is outside [50, 90], the leaf is
thinner than the per-type minimum, or some hinge lies vertically within
150mm of the lock; concretely, lockHeight = 900 with a hinge at Y = 1000
fails with the hinge-proximity error. -/
theorem lock_validator_complete :
    (∀ (input : LockPlacementInput) (hinges : List HingePlacement),
        (validateLockPlacement input hinges).valid = false ↔
          ((input.lockHeight < 800 ∨ input.lockHeight > 1200) ∨
           (input.edgeOffset < 50 ∨ input.edgeOffset > 90) ∨
           input.leafThickness < getMinimumThicknessForLock input.lockType ∨
           ∃ h ∈ hinges, |h.position.y - input.lockHeight| < 150)) ∧
    validateLockPlacement lockInput900 [hingeAt1000] =
      ⟨false, some "Lock conflicts with hinge"⟩ := by
  constructor
  · intro input hinges
    simp only [validateLockPlacement]
    split_ifs with h1 h2 h3 h4
    · exact iff_of_true rfl (Or.inl h1)
    · refine iff_of_true rfl (Or.inr (Or.inr (Or.inr ?_)))
      rw [List.any_eq_true] at h2
      obtain ⟨hinge, hh, hp⟩ := h2
      refine ⟨hinge, hh, ?_⟩
      by_contra hcon
      rw [if_neg hcon] at hp
      simp at hp
    · exact iff_of_true rfl (Or.inr (Or.inl h3))
    · exact iff_of_true rfl (Or.inr (Or.inr (Or.inl h4)))
    · refine iff_of_false (by simp) ?_
      rintro (h | h | h | ⟨hinge, hh, hprox⟩)
      · exact h1 h
      · exact h3 h
      · exact h4 h
      · apply h2
        rw [List.any_eq_true]
        exact ⟨hinge, hh, by rw [if_pos hprox]⟩
  · simp only [validateLockPlacement, lockInput900, hingeAt1000, List.any_cons,
      List.any_nil]
    norm_num [abs_sub_lt_iff]

/-- Witness for C4: a valid lock input with no hinges passes validation. -/
theorem lock_validator_complete_witness :
    (validateLockPlacement lockInput900 []).valid = true := by
  cases hb : (validateLockPlacement lockInput900 []).valid with
  | true => rfl
  | false =>
    exfalso
    have hd := (lock_validator_complete.1 lockInput900 []).mp hb
    norm_num [lockInput900, getMinimumThicknessForLock] at hd

/-! ### Claim C5: handle-lock coordination -/

/-- Claim C5 (amended): coordination and the 60mm edge offset are keyed on
the truthiness of the handle input's optional lockHeight field rather than
on the presence of a lock: with a falsy lockHeight the input is returned
unchanged (keeping its own handleHeight) and the 70mm offset is used even
when a lock placement is supplied; with a truthy lockHeight the handle
height is forced to the lock placement's Y and the 60mm offset is used,
mirrored to doorWidth minus the offset on the right edge. -/
theorem handle_lock_coordination :
    ∀ (hi : HandlePlacementInput) (lp : LockPlacement) (side : MountSide),
      (jsTruthy hi.lockHeight = false →
        coordinateHandleWithLock hi lp = hi ∧
        (calculateHandlePosition hi side).x =
          (match hi.edge with | .left => 70 | .right => hi.doorWidth - 70)) ∧
      (jsTruthy hi.lockHeight = true →
        (coordinateHandleWithLock hi lp).handleHeight = lp.position.y ∧
        (calculateHandlePosition (coordinateHandleWithLock hi lp) side).y =
          lp.position.y ∧
        (calculateHandlePosition (coordinateHandleWithLock hi lp) side).x =
          (match hi.edge with | .left => 60 | .right => hi.doorWidth - 60)) := by
  intro hi lp side
  constructor
  · intro hf
    constructor
    · simp [coordinateHandleWithLock, hf]
    · cases hE : hi.edge <;> simp [calculateHandlePosition, hf, hE]
  · intro ht
    have hcoord : coordinateHandleWithLock hi lp =
        { hi with handleHeight := lp.position.y } := by
      simp [coordinateHandleWithLock, ht]
    refine ⟨by rw [hcoord], ?_, ?_⟩
    · rw [hcoord]
      simp [calculateHandlePosition]
    · rw [hcoord]
      cases hE : hi.edge <;> simp [calculateHandlePosition, ht, hE]

/-- Witness for C5's amended theorem: a handle input carrying
lockHeight = 900 is coordinated to the lock placement's Y and the 60mm
offset. -/
theorem handle_lock_coordination_witness :
    jsTruthy handleWithLockHeight.lockHeight = true ∧
    (coordinateHandleWithLock handleWithLockHeight lockAt900).handleHeight = 900 ∧
    (calculateHandlePosition (coordinateHandleWithLock handleWithLockHeight lockAt900)
      .exterior).y = 900 ∧
    (calculateHandlePosition (coordinateHandleWithLock handleWithLockHeight lockAt900)
      .exterior).x = 60 := by
  have ht : jsTruthy handleWithLockHeight.lockHeight = true := by
    norm_num [jsTruthy, handleWithLockHeight]
  have h := (handle_lock_coordination handleWithLockHeight lockAt900 .exterior).2 ht
  refine ⟨ht, ?_, ?_, ?_⟩
  · rw [h.1]
    rfl
  · rw [h.2.1]
    rfl
  · rw [h.2.2]
    rfl

/-- Counterexample to C5 as stated: a lock placement at Y = 900 is supplied,
the handle input carries no explicit height-coordination field, yet the
handle stays at its own 1050mm height and the 70mm offset is used. -/
theorem handle_coordination_counterexample :
    coordinateHandleWithLock handleNoLockHeight lockAt900 = handleNoLockHeight ∧
    (calculateHandlePosition handleNoLockHeight .exterior).y = 1050 ∧
    (calculateHandlePosition handleNoLockHeight .exterior).x = 70 ∧
    lockAt900.position.y = 900 ∧
    ((1050 : ℝ) ≠ 900) ∧ ((70 : ℝ) ≠ 60) := by
  refine ⟨?_, ?_, ?_, rfl, by norm_num, by norm_num⟩
  · simp [coordinateHandleWithLock, jsTruthy, handleNoLockHeight]
  · simp [calculateHandlePosition, handleNoLockHeight]
  · simp [calculateHandlePosition, jsTruthy, handleNoLockHeight]

/-! ### Claim C8: bolt placements -/

/-- Claim C8: for every accepted bolt input the calculator returns one
placement per requested position with Y = doorHeight - topOffset (top) or
bottomOffset (bottom), X = 40mm from the meeting edge (mirrored on the
right), Z = -leafThickness/2 for flush/automatic and 0 for surface bolts,
and a rotation about the depth axis of 0 for top and pi for bottom
flush/automatic bolts and no rotation offset for surface bolts. -/
theorem bolt_placement_correct :
    ∀ (input : BoltPlacementInput), (validateBoltPlacement input).valid = true →
      calculateBoltPositions input = input.positions.map fun pos =>
        { id := "bolt_" ++ boltPosStr pos
          position :=
            ⟨(match input.meetingEdge with
              | .left => 40
              | .right => input.doorWidth - 40),
             (match pos with
              | .top => input.doorHeight - input.topOffset
              | .bottom => input.bottomOffset),
             (match input.boltType with
              | .flush => -input.leafThickness / 2
              | .surface => 0
              | .automatic => -input.leafThickness / 2)⟩
          rotation :=
            ⟨0, 0,
             (match input.boltType, pos with
              | .surface, _ => 0
              | _, .top => 0
              | _, .bottom => Real.pi),
             "XYZ"⟩
          metadata := { position := pos, type := boltTypeStr input.boltType } } := by
  intro input _hvalid
  unfold calculateBoltPositions
  refine List.map_congr_left fun pos _ => ?_
  cases pos <;> cases hbt : input.boltType <;> cases hme : input.meetingEdge <;>
    simp [hbt, hme, calculateBoltDepth, calculateBoltRotation]

/-- Witness for C8: an accepted flush-bolt input with top and bottom bolts
on a 2400mm door, meeting edge left. -/
theorem bolt_placement_correct_witness :
    (validateBoltPlacement boltInput).valid = true ∧
    calculateBoltPositions boltInput =
      [{ id := "bolt_" ++ boltPosStr .top
         position := ⟨40, 2400 - 200, -44 / 2⟩
         rotation := ⟨0, 0, 0, "XYZ"⟩
         metadata := { position := .top, type := boltTypeStr .flush } },
       { id := "bolt_" ++ boltPosStr .bottom
         position := ⟨40, 200, -44 / 2⟩
         rotation := ⟨0, 0, Real.pi, "XYZ"⟩
         metadata := { position := .bottom, type := boltTypeStr .flush } }] := by
  have hv : (validateBoltPlacement boltInput).valid = true := by
    simp only [validateBoltPlacement, boltInput]
    norm_num
  refine ⟨hv, ?_⟩
  rw [bolt_placement_correct boltInput hv]
  simp [boltInput]

/-! ### Claim C3: conflict detection clearance lookup -/

/-- Claim C3 evaluation: a hinge placement item (metadata.type 'butt', as
`placeHinges` produces) and a flush-bolt item 100mm apart produce no
conflict, because the key 'butt-flush' misses the kind-keyed clearance
table ('hinge-bolt' 200mm) and falls back to the 100mm default, even though
their distance 100 is below the 200mm clearance the table requires for a
hinge-bolt pair. -/
theorem conflict_clearance_lookup_bug :
    detectHardwareConflicts [hingeItem] none [] [boltItem] = [] ∧
    distanceTo hingeItem.position boltItem.position = 100 ∧
    ((100 : ℝ) < 200) := by
  have hd : distanceTo hingeItem.position boltItem.position = 100 := by
    simp only [distanceTo, hingeItem, boltItem]
    rw [show ((0 : ℝ) - 0) ^ 2 + ((150 : ℝ) - 250) ^ 2 + ((0 : ℝ) - 0) ^ 2 = 100 ^ 2 by
      norm_num]
    exact Real.sqrt_sq (by norm_num)
  refine ⟨?_, hd, by norm_num⟩
  have hcp : checkPair hingeItem boltItem = none := by
    simp only [checkPair]
    rw [hd]
    rw [show hingeItem.metadata.type = "butt" from rfl,
      show boltItem.metadata.type = "flush" from rfl]
    rw [show clearanceKey "butt" "flush" = "butt-flush" by decide]
    rw [show minClearance "butt-flush" = none by decide]
    rw [show (none : Option ℝ).getD 100 = 100 from rfl]
    rw [if_neg (by norm_num : ¬((100 : ℝ) < 100))]
  simp [detectHardwareConflicts, conflictPairs, hcp]
